import Mathlib

/-
Verification of the email-dispatch helper (framework/email/tasks.py), the
Contributor save invariant, and the preprint analytics summary of the
osf.io backend, as a shallow embedding in Lean 4.
-/

namespace Osf

/-- Python truthiness of an optional string: `None` and `""` are falsy. -/
def pyTruthyStr : Option String → Bool
  | none => false
  | some s => s != ""

/-- Python truthiness of an optional list of strings: `None` and `[]` are falsy. -/
def pyTruthyList : Option (List String) → Bool
  | none => false
  | some l => !l.isEmpty

/-- Python truthiness of an optional byte string: `None` and `b""` are falsy. -/
def pyTruthyBytes : Option (List Nat) → Bool
  | none => false
  | some l => !l.isEmpty

/-- A Python value that is either a `str` or a `list` of `str`, as accepted by
the `cc_addr` and `bcc_addr` parameters of `_send_with_sendgrid`. -/
inductive StrOrList where
  | pstr (s : String)
  | plist (l : List String)
deriving Repr, DecidableEq

/-- Normalisation performed by `_send_with_sendgrid`: a bare string becomes a
one-element list (`isinstance(x, str)` branch), a list stays as is. -/
def StrOrList.toList : StrOrList → List String
  | pstr s => [s]
  | plist l => l

/-- Python truthiness of an optional str-or-list value. -/
def pyTruthySL : Option StrOrList → Bool
  | none => false
  | some (.pstr s) => s != ""
  | some (.plist l) => !l.isEmpty

/-- The subset of `website.settings` read by `framework/email/tasks.py`. -/
structure Settings where
  USE_EMAIL : Bool
  SENDGRID_API_KEY : Option String
  SENDGRID_WHITELIST_MODE : Bool
  SENDGRID_EMAIL_WHITELIST : List String
  MAIL_USERNAME : Option String
  MAIL_PASSWORD : Option String
  MAIL_SERVER : String
deriving Repr, DecidableEq

/-- The base64 alphabet used by `base64.b64encode`. -/
def base64Table : List Char :=
  "ABCDEFGHIJKLMNOPQRSTUVWXYZabcdefghijklmnopqrstuvwxyz0123456789+/".toList

/-- Character of the base64 alphabet at a 6-bit index. -/
def b64char (n : Nat) : Char := base64Table.getD n 'A'

/-- Base64 encoding of a byte list (RFC 4648 with padding), the semantics of
`base64.b64encode` applied to the attachment content. -/
def b64encodeAux : List Nat → List Char
  | [] => []
  | [a] => [b64char (a / 4), b64char (a % 4 * 16), '=', '=']
  | [a, b] => [b64char (a / 4), b64char (a % 4 * 16 + b / 16), b64char (b % 16 * 4), '=']
  | a :: b :: c :: rest =>
      b64char (a / 4) :: b64char (a % 4 * 16 + b / 16) ::
      b64char (b % 16 * 4 + c / 64) :: b64char (c % 64) :: b64encodeAux rest

/-- Base64 encoding as the string produced by `b64encode(content).decode()`. -/
def b64encode (bs : List Nat) : String := String.mk (b64encodeAux bs)

/-- The MIME message built by `_send_with_smtp` via `MIMEText` and header
assignment. -/
structure MIMEText where
  body : String
  subtype : String
  charset : String
  subject : String
  from_addr : String
  to_addr : String
  reply_to : Option String
deriving Repr, DecidableEq

/-- The observable effect of the SMTP block of `_send_with_smtp`: the server
connected to, whether STARTTLS was issued, the credentials used for login (if
any), and the arguments of `server.sendmail`. -/
structure SmtpSend where
  server : String
  used_starttls : Bool
  login_cred : Option (String × String)
  from_addr : String
  to_addrs : List String
  msg : MIMEText
deriving Repr, DecidableEq

/-- Outcome of `_send_with_smtp`: the Python return value (`none` models
Python `None`), the error-log lines emitted, and the SMTP send performed. -/
structure SmtpResult where
  result : Option Bool
  logs : List String
  sent : Option SmtpSend
deriving Repr, DecidableEq

/-- Shallow embedding of `_send_with_smtp` from `framework/email/tasks.py`. -/
def sendWithSmtp (st : Settings) (from_addr to_addr subject message : String)
    (ttls login : Bool) (username password : Option String)
    (bcc_addr : Option (List String)) (reply_to : Option String) : SmtpResult :=
  let username := if pyTruthyStr username then username else st.MAIL_USERNAME
  let password := if pyTruthyStr password then password else st.MAIL_PASSWORD
  if login && (username.isNone || password.isNone) then
    { result := some false
      logs := ["Mail username and password not set; skipping send."]
      sent := none }
  else
    let msg : MIMEText :=
      { body := message
        subtype := "html"
        charset := "utf-8"
        subject := subject
        from_addr := from_addr
        to_addr := to_addr
        reply_to := if pyTruthyStr reply_to then reply_to else none }
    let recipients := [to_addr] ++ bcc_addr.getD []
    { result := some true
      logs := []
      sent := some
        { server := st.MAIL_SERVER
          used_starttls := ttls
          login_cred := if login then some (username.getD "", password.getD "") else none
          from_addr := from_addr
          to_addrs := recipients
          msg := msg } }

/-- A SendGrid attachment as assembled by `_send_with_sendgrid`: base64 file
content, file name, and disposition. -/
structure Attachment where
  file_content : String
  file_name : String
  disposition : String
deriving Repr, DecidableEq

/-- A SendGrid `Personalization` holding the To, Cc and Bcc recipients. -/
structure Personalization where
  tos : List String
  ccs : List String
  bccs : List String
deriving Repr, DecidableEq

/-- The SendGrid `Mail` object assembled by `_send_with_sendgrid`. -/
structure Mail where
  from_email : String
  html_content : String
  subject : String
  personalizations : List Personalization
  reply_to : Option String
  categories : List String
  attachments : List Attachment
deriving Repr, DecidableEq

/-- The response returned by `client.send(mail)`: HTTP status code and body. -/
structure Response where
  status_code : Nat
  body : String
deriving Repr, DecidableEq

/-- Outcome of `_send_with_sendgrid`: the Python return value (`none` models
Python `None`), the messages reported to sentry, and the mail handed to the
SendGrid client (if the send was attempted). -/
structure SendgridResult where
  result : Option Bool
  sentry : List String
  sent : Option Mail
deriving Repr, DecidableEq

/-- The sentry message for a non-whitelisted recipient in whitelist mode. -/
def sendgridWhitelistMessage (to_addr : String) : String :=
  "SENDGRID_WHITELIST_MODE is True. Failed to send emails to non-whitelisted recipient "
    ++ to_addr ++ "."

/-- The sentry message for an error status code from SendGrid, with the
response body truncated to 30 characters. -/
def sendgridErrorMessage (status : Nat) (from_addr to_addr subject : String)
    (categories : Option (List String)) (attachment_name : Option String)
    (body : String) : String :=
  toString status ++ " error response from sendgrid." ++
  "from_addr:  " ++ from_addr ++ "\n" ++
  "to_addr:  " ++ to_addr ++ "\n" ++
  "subject:  " ++ subject ++ "\n" ++
  "mimetype:  html\n" ++
  "message:  " ++ body.take 30 ++ "\n" ++
  "categories:  " ++ toString categories ++ "\n" ++
  "attachment_name:  " ++ toString attachment_name ++ "\n"

/-- The `Mail` object built by `_send_with_sendgrid` before `client.send`:
from, body and subject, one personalization with To, optional Cc and Bcc
(normalising a bare string to a one-element list), optional reply-to,
categories, and an attachment exactly when both `attachment_name` and
`attachment_content` are truthy, with base64-encoded content. -/
def buildSendgridMail (from_addr to_addr subject message : String)
    (categories : Option (List String)) (attachment_name : Option String)
    (attachment_content : Option (List Nat)) (cc_addr bcc_addr : Option StrOrList)
    (reply_to : Option String) : Mail :=
  let personalization : Personalization :=
    { tos := [to_addr]
      ccs := if pyTruthySL cc_addr then (cc_addr.getD (.plist [])).toList else []
      bccs := if pyTruthySL bcc_addr then (bcc_addr.getD (.plist [])).toList else [] }
  { from_email := from_addr
    html_content := message
    subject := subject
    personalizations := [personalization]
    reply_to := if pyTruthyStr reply_to then reply_to else none
    categories := if pyTruthyList categories then categories.getD [] else []
    attachments :=
      if pyTruthyStr attachment_name && pyTruthyBytes attachment_content then
        [{ file_content := b64encode (attachment_content.getD [])
           file_name := attachment_name.getD ""
           disposition := "attachment" }]
      else [] }

/-- Shallow embedding of `_send_with_sendgrid` from `framework/email/tasks.py`.
The SendGrid client is modelled by `respond`, mapping the mail handed to
`client.send` to the HTTP response. -/
def sendWithSendgrid (st : Settings) (from_addr to_addr subject message : String)
    (categories : Option (List String)) (attachment_name : Option String)
    (attachment_content : Option (List Nat)) (cc_addr bcc_addr : Option StrOrList)
    (reply_to : Option String) (respond : Mail → Response) : SendgridResult :=
  let in_allowed_list := st.SENDGRID_EMAIL_WHITELIST.contains to_addr
  if st.SENDGRID_WHITELIST_MODE && !in_allowed_list then
    { result := some false
      sentry := [sendgridWhitelistMessage to_addr]
      sent := none }
  else
    let mail := buildSendgridMail from_addr to_addr subject message categories
      attachment_name attachment_content cc_addr bcc_addr reply_to
    let response := respond mail
    if response.status_code ∉ ([200, 201, 202] : List Nat) then
      { result := none
        sentry := [sendgridErrorMessage response.status_code from_addr to_addr subject
                    categories attachment_name response.body]
        sent := some mail }
    else
      { result := some true
        sentry := []
        sent := some mail }

/-- Combined outcome of `send_email`: the Python return value, sentry
messages, error-log lines, and the send performed on each transport. -/
structure EmailResult where
  result : Option Bool
  sentry : List String
  logs : List String
  sgSent : Option Mail
  smtpSent : Option SmtpSend
deriving Repr, DecidableEq

/-- Shallow embedding of the `send_email` task from
`framework/email/tasks.py`: a no-op when `USE_EMAIL` is falsy, otherwise
dispatching to `_send_with_sendgrid` when `SENDGRID_API_KEY` is truthy and to
`_send_with_smtp` otherwise, returning the chosen path result. -/
def send_email (st : Settings) (respond : Mail → Response)
    (from_addr to_addr subject message : String)
    (reply_to : Option String) (ttls login : Bool)
    (bcc_addr : Option (List String)) (username password : Option String)
    (categories : Option (List String)) (attachment_name : Option String)
    (attachment_content : Option (List Nat)) : EmailResult :=
  if st.USE_EMAIL = false then
    { result := none, sentry := [], logs := [], sgSent := none, smtpSent := none }
  else if pyTruthyStr st.SENDGRID_API_KEY then
    let r := sendWithSendgrid st from_addr to_addr subject message categories
      attachment_name attachment_content none (bcc_addr.map StrOrList.plist) reply_to respond
    { result := r.result, sentry := r.sentry, logs := [], sgSent := r.sent, smtpSent := none }
  else
    let r := sendWithSmtp st from_addr to_addr subject message ttls login
      username password bcc_addr reply_to
    { result := r.result, sentry := [], logs := r.logs, sgSent := none, smtpSent := r.sent }

/-- A `Contributor` row: the user and node keys and the two role flags. -/
structure Contributor where
  user : Nat
  node : Nat
  visible : Bool
  is_curator : Bool
deriving Repr, DecidableEq

/-- Outcome of a `Contributor.save` call. -/
inductive SaveOutcome where
  | saved
  | integrityError (msg : String)
deriving Repr, DecidableEq

/-- Modelled from the spec: the `Contributor` model of `osf.models` is not
under `src/` (only its tests are). Per the spec, a contributor cannot be both
curator and visible simultaneously; this is enforced at save time, raising a
database integrity error rather than persisting the inconsistent row, which
is left unchanged in storage. `db` is the stored row (as `refresh_from_db`
would reload it) and the result pairs the stored row after the call with the
outcome. -/
def contributorSave (db : Option Contributor) (c : Contributor) :
    Option Contributor × SaveOutcome :=
  if c.visible && c.is_curator then
    (db, SaveOutcome.integrityError "Curators cannot be made bibliographic contributors")
  else
    (some c, SaveOutcome.saved)

/-- A preprint provider as seen by the analytics summary. -/
structure PreprintProvider where
  name : String
deriving Repr, DecidableEq

/-- The POST body sent to the search/analytics backend for one provider and
one day. -/
structure AnalyticsQuery where
  provider_name : String
  day : Nat
deriving Repr, DecidableEq

/-- The relevant portion of the backend JSON response: `hits.total`. -/
structure AnalyticsResponse where
  hits_total : Nat
deriving Repr, DecidableEq

/-- One event returned by the preprint summary, carrying provider name and
that day's preprint count. -/
structure PreprintEvent where
  provider_name : String
  provider_total : Nat
deriving Repr, DecidableEq

/-- Modelled from the spec: `scripts/analytics/preprint_summary.py` is not
under `src/` (only its test is). Per the spec and the test, `get_events`
issues an HTTP POST to the search/analytics backend per provider and returns
one event per preprint provider carrying the provider name and the count of
that provider's preprints for the day as reported by the backend response
(`hits.total`). The backend is modelled by `post`. -/
def preprintSummaryGetEvents (providers : List PreprintProvider)
    (post : AnalyticsQuery → AnalyticsResponse) (day : Nat) : List PreprintEvent :=
  providers.map fun p =>
    { provider_name := p.name
      provider_total := (post { provider_name := p.name, day := day }).hits_total }

/-- A mail-strip helper: the same mail with the attachment list emptied. -/
def stripAttachments (m : Mail) : Mail := { m with attachments := [] }

/-- A settings fixture: email enabled, SendGrid key set, whitelist off. -/
def stOpen : Settings :=
  { USE_EMAIL := true
    SENDGRID_API_KEY := some "SG.key"
    SENDGRID_WHITELIST_MODE := false
    SENDGRID_EMAIL_WHITELIST := []
    MAIL_USERNAME := some "u"
    MAIL_PASSWORD := some "p"
    MAIL_SERVER := "mail.osf.io" }

/-- A settings fixture with whitelist mode on and one whitelisted address. -/
def stWhitelist : Settings :=
  { stOpen with SENDGRID_WHITELIST_MODE := true, SENDGRID_EMAIL_WHITELIST := ["ok@osf.io"] }

/-- A settings fixture without a SendGrid key, so the SMTP path is taken. -/
def stSmtp : Settings := { stOpen with SENDGRID_API_KEY := none }

/-- A settings fixture with outbound email disabled. -/
def stNoEmail : Settings := { stOpen with USE_EMAIL := false }

/-- A settings fixture on the SMTP path with no credentials configured. -/
def stNoCreds : Settings :=
  { stOpen with SENDGRID_API_KEY := none, MAIL_USERNAME := none, MAIL_PASSWORD := none }

/-- A SendGrid client fixture always answering 200. -/
def respond200 : Mail → Response := fun _ => { status_code := 200, body := "" }

/-- A SendGrid client fixture always answering 204 No Content. -/
def respond204 : Mail → Response := fun _ => { status_code := 204, body := "No Content" }

/-- A SendGrid client fixture always answering 500. -/
def respond500 : Mail → Response := fun _ => { status_code := 500, body := "server error" }

/-- An analytics backend fixture always reporting one hit. -/
def post1 : AnalyticsQuery → AnalyticsResponse := fun _ => { hits_total := 1 }

/-- C1: for every contributor with `visible = true` and `is_curator = true`,
save raises the integrity error and the stored row is unchanged, so reloading
yields the field values from before the failed save. -/
theorem contributor_save_visible_curator_integrity
    (db : Option Contributor) (c : Contributor)
    (hv : c.visible = true) (hc : c.is_curator = true) :
    (contributorSave db c).2 =
      SaveOutcome.integrityError "Curators cannot be made bibliographic contributors" ∧
    (contributorSave db c).1 = db := by
  simp [contributorSave, hv, hc]

/-- Witness for C1: a stored invisible curator, saved again with
`visible := true`, raises the integrity error and reloads as the old row. -/
theorem contributor_save_visible_curator_integrity_witness :
    (contributorSave (some { user := 1, node := 2, visible := false, is_curator := true })
        { user := 1, node := 2, visible := true, is_curator := true }).2 =
      SaveOutcome.integrityError "Curators cannot be made bibliographic contributors" ∧
    (contributorSave (some { user := 1, node := 2, visible := false, is_curator := true })
        { user := 1, node := 2, visible := true, is_curator := true }).1 =
      some { user := 1, node := 2, visible := false, is_curator := true } :=
  contributor_save_visible_curator_integrity _ _ rfl rfl

/-- C7: for every contributor with `is_curator = false` and `visible = true`,
save succeeds and reloading yields exactly the saved contributor, so a
save/reload round trip is the identity. -/
theorem contributor_save_reload_roundtrip
    (db : Option Contributor) (c : Contributor)
    (hc : c.is_curator = false) (hv : c.visible = true) :
    contributorSave db c = (some c, SaveOutcome.saved) := by
  simp [contributorSave, hc]

/-- Witness for C7: a visible non-curator contributor saves and reloads
with identical field values. -/
theorem contributor_save_reload_roundtrip_witness :
    contributorSave none { user := 3, node := 4, visible := true, is_curator := false } =
      (some { user := 3, node := 4, visible := true, is_curator := false },
       SaveOutcome.saved) :=
  contributor_save_reload_roundtrip none _ rfl rfl

/-- C3: when `settings.USE_EMAIL` is false, `send_email` performs no send on
either transport, records nothing, and returns `None`, for all arguments. -/
theorem send_email_disabled_noop (st : Settings) (respond : Mail → Response)
    (from_addr to_addr subject message : String) (reply_to : Option String)
    (ttls login : Bool) (bcc_addr : Option (List String))
    (username password : Option String) (categories : Option (List String))
    (attachment_name : Option String) (attachment_content : Option (List Nat))
    (h : st.USE_EMAIL = false) :
    send_email st respond from_addr to_addr subject message reply_to ttls login
        bcc_addr username password categories attachment_name attachment_content =
      { result := none, sentry := [], logs := [], sgSent := none, smtpSent := none } := by
  simp [send_email, h]

/-- Witness for C3: with email disabled, a concrete call is a no-op. -/
theorem send_email_disabled_noop_witness :
    send_email stNoEmail respond200 "f@x" "t@x" "s" "m" none true true
        none none none none none none =
      { result := none, sentry := [], logs := [], sgSent := none, smtpSent := none } :=
  send_email_disabled_noop stNoEmail respond200 "f@x" "t@x" "s" "m" none true true
    none none none none none none rfl

/-- C5: on the SMTP path with login required, if after falling back to the
settings values the username or the password is still missing, the function
logs the error, performs no SMTP connection or send, and returns False. -/
theorem smtp_missing_credentials (st : Settings)
    (from_addr to_addr subject message : String) (ttls : Bool)
    (username password : Option String) (bcc_addr : Option (List String))
    (reply_to : Option String)
    (h : ((if pyTruthyStr username then username else st.MAIL_USERNAME).isNone
          || (if pyTruthyStr password then password else st.MAIL_PASSWORD).isNone) = true) :
    sendWithSmtp st from_addr to_addr subject message ttls true username password
        bcc_addr reply_to =
      { result := some false
        logs := ["Mail username and password not set; skipping send."]
        sent := none } := by
  simp [sendWithSmtp, h]

/-- Witness for C5: no credentials given and none configured aborts before
any SMTP connection and returns False. -/
theorem smtp_missing_credentials_witness :
    sendWithSmtp stNoCreds "f@x" "t@x" "s" "m" true true none none none none =
      { result := some false
        logs := ["Mail username and password not set; skipping send."]
        sent := none } :=
  smtp_missing_credentials stNoCreds "f@x" "t@x" "s" "m" true none none none none rfl

/-- C9: on the SMTP path, when credentials do not abort the send, the
envelope recipient list passed to `server.sendmail` is exactly `to_addr`
followed by the bcc list (just `[to_addr]` when `bcc_addr` is `None`), while
only `to_addr` appears in the To header of the message. -/
theorem smtp_envelope_recipients (st : Settings)
    (from_addr to_addr subject message : String) (ttls login : Bool)
    (username password : Option String) (bcc_addr : Option (List String))
    (reply_to : Option String)
    (h : (login && ((if pyTruthyStr username then username else st.MAIL_USERNAME).isNone
          || (if pyTruthyStr password then password else st.MAIL_PASSWORD).isNone)) = false) :
    ((sendWithSmtp st from_addr to_addr subject message ttls login username password
        bcc_addr reply_to).sent.map SmtpSend.to_addrs) =
      some (to_addr :: bcc_addr.getD []) ∧
    (bcc_addr = none →
      ((sendWithSmtp st from_addr to_addr subject message ttls login username password
          bcc_addr reply_to).sent.map SmtpSend.to_addrs) = some [to_addr]) ∧
    ((sendWithSmtp st from_addr to_addr subject message ttls login username password
        bcc_addr reply_to).sent.map (fun s => s.msg.to_addr)) = some to_addr := by
  refine ⟨?_, ?_, ?_⟩
  · simp [sendWithSmtp, h]
  · intro hb
    simp [sendWithSmtp, h, hb]
  · simp [sendWithSmtp, h]

/-- Witness for C9: with a bcc list, the envelope recipients are the To
address followed by the bcc address. -/
theorem smtp_envelope_recipients_witness :
    ((sendWithSmtp stSmtp "f@x" "t@x" "s" "m" true true none none
        (some ["b@x"]) none).sent.map SmtpSend.to_addrs) = some ["t@x", "b@x"] := by
  have h := (smtp_envelope_recipients stSmtp "f@x" "t@x" "s" "m" true true none none
    (some ["b@x"]) none rfl).1
  simpa using h

/-- C2: with outbound email enabled, `send_email` routes on the server-side
API key: when `SENDGRID_API_KEY` is truthy the SendGrid path is taken (no
SMTP send happens) and `send_email` returns that path's result; otherwise the
SMTP path is taken (no SendGrid send happens) and `send_email` returns that
path's result. -/
theorem send_email_transport_routing (st : Settings) (respond : Mail → Response)
    (from_addr to_addr subject message : String) (reply_to : Option String)
    (ttls login : Bool) (bcc_addr : Option (List String))
    (username password : Option String) (categories : Option (List String))
    (attachment_name : Option String) (attachment_content : Option (List Nat))
    (h : st.USE_EMAIL = true) :
    (pyTruthyStr st.SENDGRID_API_KEY = true →
      (send_email st respond from_addr to_addr subject message reply_to ttls login
          bcc_addr username password categories attachment_name attachment_content).result =
        (sendWithSendgrid st from_addr to_addr subject message categories attachment_name
          attachment_content none (bcc_addr.map StrOrList.plist) reply_to respond).result ∧
      (send_email st respond from_addr to_addr subject message reply_to ttls login
          bcc_addr username password categories attachment_name attachment_content).sgSent =
        (sendWithSendgrid st from_addr to_addr subject message categories attachment_name
          attachment_content none (bcc_addr.map StrOrList.plist) reply_to respond).sent ∧
      (send_email st respond from_addr to_addr subject message reply_to ttls login
          bcc_addr username password categories attachment_name attachment_content).smtpSent =
        none) ∧
    (pyTruthyStr st.SENDGRID_API_KEY = false →
      (send_email st respond from_addr to_addr subject message reply_to ttls login
          bcc_addr username password categories attachment_name attachment_content).result =
        (sendWithSmtp st from_addr to_addr subject message ttls login username password
          bcc_addr reply_to).result ∧
      (send_email st respond from_addr to_addr subject message reply_to ttls login
          bcc_addr username password categories attachment_name attachment_content).smtpSent =
        (sendWithSmtp st from_addr to_addr subject message ttls login username password
          bcc_addr reply_to).sent ∧
      (send_email st respond from_addr to_addr subject message reply_to ttls login
          bcc_addr username password categories attachment_name attachment_content).sgSent =
        none) := by
  refine ⟨fun h2 => ?_, fun h2 => ?_⟩ <;> simp [send_email, h, h2]

/-- Witness for C2: with a SendGrid key set, a concrete call takes the
SendGrid path and its result is the path result. -/
theorem send_email_transport_routing_witness :
    (send_email stOpen respond200 "f@x" "t@x" "s" "m" none true true
        none none none none none none).result =
      (sendWithSendgrid stOpen "f@x" "t@x" "s" "m" none none none none none none
        respond200).result ∧
    (send_email stOpen respond200 "f@x" "t@x" "s" "m" none true true
        none none none none none none).sgSent =
      (sendWithSendgrid stOpen "f@x" "t@x" "s" "m" none none none none none none
        respond200).sent ∧
    (send_email stOpen respond200 "f@x" "t@x" "s" "m" none true true
        none none none none none none).smtpSent = none :=
  (send_email_transport_routing stOpen respond200 "f@x" "t@x" "s" "m" none true true
    none none none none none none rfl).1 rfl

/-- Counterexample for C4: HTTP 204 is a 2xx success status, yet the code
treats it as an error because `_send_with_sendgrid` checks membership in
`(200, 201, 202)`: at status 204 the call returns `None` (not True) and a
sentry message is recorded. -/
theorem sendgrid_204_not_success :
    (sendWithSendgrid stOpen "f@x" "t@x" "s" "m" none none none none none none
        respond204).result = none ∧
    (sendWithSendgrid stOpen "f@x" "t@x" "s" "m" none none none none none none
        respond204).sentry ≠ [] := by
  constructor
  · rfl
  · decide

/-- C4 (amended): on the SendGrid path, once the whitelist check passes, a
response status outside `{200, 201, 202}` records a sentry message and makes
the call return the falsy `None` without raising; a status in
`{200, 201, 202}` makes the call return True with nothing reported. -/
theorem sendgrid_status_handling (st : Settings)
    (from_addr to_addr subject message : String) (categories : Option (List String))
    (attachment_name : Option String) (attachment_content : Option (List Nat))
    (cc_addr bcc_addr : Option StrOrList) (reply_to : Option String)
    (respond : Mail → Response)
    (h : (st.SENDGRID_WHITELIST_MODE && !(st.SENDGRID_EMAIL_WHITELIST.contains to_addr)) = false) :
    ((respond (buildSendgridMail from_addr to_addr subject message categories
        attachment_name attachment_content cc_addr bcc_addr reply_to)).status_code ∉
          ([200, 201, 202] : List Nat) →
      (sendWithSendgrid st from_addr to_addr subject message categories attachment_name
          attachment_content cc_addr bcc_addr reply_to respond).result = none ∧
      (sendWithSendgrid st from_addr to_addr subject message categories attachment_name
          attachment_content cc_addr bcc_addr reply_to respond).sentry ≠ []) ∧
    ((respond (buildSendgridMail from_addr to_addr subject message categories
        attachment_name attachment_content cc_addr bcc_addr reply_to)).status_code ∈
          ([200, 201, 202] : List Nat) →
      (sendWithSendgrid st from_addr to_addr subject message categories attachment_name
          attachment_content cc_addr bcc_addr reply_to respond).result = some true ∧
      (sendWithSendgrid st from_addr to_addr subject message categories attachment_name
          attachment_content cc_addr bcc_addr reply_to respond).sentry = []) := by
  constructor
  · intro hs
    simp only [sendWithSendgrid]
    rw [h]
    simp [hs]
  · intro hs
    simp only [sendWithSendgrid]
    rw [h]
    simp [hs]

/-- Witness for C4: a concrete 500 response yields `None` and a recorded
sentry message. -/
theorem sendgrid_status_handling_witness :
    (sendWithSendgrid stOpen "f@x" "t@x" "s" "m" none none none none none none
        respond500).result = none ∧
    (sendWithSendgrid stOpen "f@x" "t@x" "s" "m" none none none none none none
        respond500).sentry ≠ [] :=
  (sendgrid_status_handling stOpen "f@x" "t@x" "s" "m" none none none none none none
    respond500 rfl).1 (by decide)

/-- C6: on the SendGrid path, with whitelist mode on and a recipient not in
the whitelist, a sentry message is recorded and the function returns False
without handing any mail to the client; when whitelist mode is off or the
recipient is whitelisted, the built mail is handed to the client. -/
theorem sendgrid_whitelist_enforcement (st : Settings)
    (from_addr to_addr subject message : String) (categories : Option (List String))
    (attachment_name : Option String) (attachment_content : Option (List Nat))
    (cc_addr bcc_addr : Option StrOrList) (reply_to : Option String)
    (respond : Mail → Response) :
    (st.SENDGRID_WHITELIST_MODE = true →
      st.SENDGRID_EMAIL_WHITELIST.contains to_addr = false →
      sendWithSendgrid st from_addr to_addr subject message categories attachment_name
          attachment_content cc_addr bcc_addr reply_to respond =
        { result := some false
          sentry := [sendgridWhitelistMessage to_addr]
          sent := none }) ∧
    (st.SENDGRID_WHITELIST_MODE = false ∨
        st.SENDGRID_EMAIL_WHITELIST.contains to_addr = true →
      (sendWithSendgrid st from_addr to_addr subject message categories attachment_name
          attachment_content cc_addr bcc_addr reply_to respond).sent =
        some (buildSendgridMail from_addr to_addr subject message categories
          attachment_name attachment_content cc_addr bcc_addr reply_to)) := by
  constructor
  · intro h1 h2
    have hcond : (st.SENDGRID_WHITELIST_MODE
        && !(st.SENDGRID_EMAIL_WHITELIST.contains to_addr)) = true := by
      rw [h1, h2]
      rfl
    simp only [sendWithSendgrid]
    rw [hcond]
    simp
  · intro h1
    have hcond : (st.SENDGRID_WHITELIST_MODE
        && !(st.SENDGRID_EMAIL_WHITELIST.contains to_addr)) = false := by
      rcases h1 with h1 | h1
      · simp [h1]
      · simp only [h1, Bool.not_true, Bool.and_false]
    simp only [sendWithSendgrid]
    rw [hcond]
    simp only [Bool.false_eq_true, if_false]
    split <;> rfl

/-- Witness for C6: whitelist mode on and a non-whitelisted recipient returns
False with a sentry message and no send. -/
theorem sendgrid_whitelist_enforcement_witness :
    sendWithSendgrid stWhitelist "f@x" "bad@x" "s" "m" none none none none none none
        respond200 =
      { result := some false
        sentry := [sendgridWhitelistMessage "bad@x"]
        sent := none } :=
  (sendgrid_whitelist_enforcement stWhitelist "f@x" "bad@x" "s" "m" none none none
    none none none respond200).1 rfl (by decide)

/-- C10: on the SendGrid path, once the whitelist check passes, the sent mail
carries an attachment if and only if both `attachment_name` and
`attachment_content` are truthy, with file content the base64 encoding of
`attachment_content`; the rest of the mail does not depend on the attachment
arguments. -/
theorem sendgrid_attachment_iff (st : Settings)
    (from_addr to_addr subject message : String) (categories : Option (List String))
    (attachment_name : Option String) (attachment_content : Option (List Nat))
    (cc_addr bcc_addr : Option StrOrList) (reply_to : Option String)
    (respond : Mail → Response)
    (h : (st.SENDGRID_WHITELIST_MODE && !(st.SENDGRID_EMAIL_WHITELIST.contains to_addr)) = false) :
    ((sendWithSendgrid st from_addr to_addr subject message categories attachment_name
        attachment_content cc_addr bcc_addr reply_to respond).sent.map Mail.attachments) =
      some (if pyTruthyStr attachment_name && pyTruthyBytes attachment_content then
              [{ file_content := b64encode (attachment_content.getD [])
                 file_name := attachment_name.getD ""
                 disposition := "attachment" }]
            else []) ∧
    ((sendWithSendgrid st from_addr to_addr subject message categories attachment_name
        attachment_content cc_addr bcc_addr reply_to respond).sent.map stripAttachments) =
      ((sendWithSendgrid st from_addr to_addr subject message categories none none
        cc_addr bcc_addr reply_to respond).sent.map stripAttachments) := by
  have hsent : ∀ (an : Option String) (ac : Option (List Nat)),
      (sendWithSendgrid st from_addr to_addr subject message categories an ac
          cc_addr bcc_addr reply_to respond).sent =
        some (buildSendgridMail from_addr to_addr subject message categories an ac
          cc_addr bcc_addr reply_to) := by
    intro an ac
    simp only [sendWithSendgrid, h, Bool.false_eq_true, if_false]
    split <;> rfl
  refine ⟨?_, ?_⟩
  · rw [hsent]
    simp [buildSendgridMail]
  · rw [hsent, hsent]
    rfl

/-- Witness for C10: a concrete attachment name and two-byte content yield a
single attachment whose file content is the base64 string of the bytes. -/
theorem sendgrid_attachment_iff_witness :
    ((sendWithSendgrid stOpen "f@x" "t@x" "s" "m" none (some "a.txt")
        (some [104, 105]) none none none respond200).sent.map Mail.attachments) =
      some [{ file_content := "aGk=", file_name := "a.txt", disposition := "attachment" }] := by
  have h := (sendgrid_attachment_iff stOpen "f@x" "t@x" "s" "m" none (some "a.txt")
    (some [104, 105]) none none none respond200 rfl).1
  exact h.trans (by decide)

/-- C8: the preprint summary, queried for a day, posts one query per provider
to the analytics backend and returns one event per provider, carrying the
provider name and the count reported in the backend response. -/
theorem preprint_summary_events (providers : List PreprintProvider)
    (post : AnalyticsQuery → AnalyticsResponse) (day : Nat) :
    (preprintSummaryGetEvents providers post day).length = providers.length ∧
    ∀ p : PreprintProvider, p ∈ providers →
      ({ provider_name := p.name
         provider_total := (post { provider_name := p.name, day := day }).hits_total } :
        PreprintEvent) ∈ preprintSummaryGetEvents providers post day := by
  constructor
  · simp [preprintSummaryGetEvents]
  · intro p hp
    simp only [preprintSummaryGetEvents, List.mem_map]
    exact ⟨p, hp, rfl⟩

/-- Witness for C8: one provider named Test 1 with a backend reporting one
hit yields the event with that name and count 1. -/
theorem preprint_summary_events_witness :
    ({ provider_name := "Test 1", provider_total := 1 } : PreprintEvent) ∈
      preprintSummaryGetEvents [{ name := "Test 1" }] post1 0 :=
  (preprint_summary_events [{ name := "Test 1" }] post1 0).2 { name := "Test 1" }
    (by simp)

end Osf
